import Mathlib

/-!
Verification of the document numbering engine of the tenant service
(src/tenants/models.py, class TenantDocumentNumbering, and the counter
views in src/tenants/views.py).

The embedding is shallow: each method of the model class becomes a Lean
function over an explicit record of the persisted fields; Django's
implicit save of updated_at (auto_now) is modelled by passing the current
date to every state-changing operation.  Exceptions are modelled with
Except.  Python's builtin str.format, which the source calls on
custom_format with six keyword arguments, is modelled by pythonFormat
below on the fragment the source can reach: literal text, escaped double
braces, and simple replacement fields with an optional conversion and an
optional zero-padded-decimal format spec.  Constructs outside that
fragment (attribute or index access on a field, other format specs,
applied conversions, nested braces) are mapped to the distinguished error
PyErr.unmodelled, which like Python's corresponding errors is NOT caught
by the source's except (KeyError, ValueError) handler.
-/

/-- Errors that Python's str.format can raise on the inputs of this
program.  keyError: an unknown keyword field name; valueError: malformed
template syntax or an invalid conversion / format code; indexError: a
positional replacement field (there are no positional arguments in the
call under study); unmodelled: a construct outside the modelled fragment
of the format mini-language. -/
inductive PyErr where
  | keyError
  | valueError
  | indexError
  | unmodelled
deriving DecidableEq, Repr

/-- Values of the keyword arguments passed to str.format by the source:
Python str or int. -/
inductive PyVal where
  | str (s : String)
  | int (i : Int)
deriving DecidableEq, Repr

/-- Opening curly brace character (written via its code point). -/
def openBrace : Char := Char.ofNat 123

/-- Closing curly brace character (written via its code point). -/
def closeBrace : Char := Char.ofNat 125

/-- Zero-pad a string on the left to a minimum width, as Python's
format spec 0Nd does for a non-negative integer rendered as s. -/
def zeroPad (width : Nat) (s : String) : String :=
  if width ≤ s.length then s
  else String.mk (List.replicate (width - s.length) '0') ++ s

/-- Render a natural number as Python's str does. -/
def natStr (n : Nat) : String := Nat.repr n

/-- Two-digit zero-padded rendering, as Python's f-string 02d spec. -/
def pad2 (n : Nat) : String := zeroPad 2 (natStr n)

/-- Default rendering of a format value with an empty format spec:
str values render as themselves, ints as their decimal representation. -/
def renderVal : PyVal → String
  | .str s => s
  | .int i => toString i

/-- Split a character list at the first occurrence of a character:
none when absent, otherwise the parts before and after it. -/
def splitOnFirst (p : Char) : List Char → Option (List Char × List Char)
  | [] => none
  | c :: rest =>
    if c = p then some ([], rest)
    else match splitOnFirst p rest with
      | none => none
      | some (a, b) => some (c :: a, b)

/-- Lookup of a keyword argument by name. -/
def lookupVar (vars : List (String × PyVal)) (name : String) : Option PyVal :=
  match vars.find? (fun kv => kv.fst == name) with
  | none => none
  | some kv => some kv.snd

/-- Numeric value of a list of decimal digit characters. -/
def digitsToNat (l : List Char) : Nat :=
  l.foldl (fun acc c => acc * 10 + (c.toNat - 48)) 0

/-- Application of a format spec to a value.  The empty spec renders the
value directly.  A spec of the shape 0, one or more digits, then d
zero-pads a non-negative int to that width and is a ValueError on a str
(Python: unknown format code for object of type str).  Any other spec is
outside the modelled fragment. -/
def applySpec (v : PyVal) (spec : List Char) : Except PyErr String :=
  match spec with
  | [] => .ok (renderVal v)
  | c :: rest =>
    if c = '0' ∧ rest.getLast? = some 'd' ∧ rest.dropLast ≠ [] ∧
        (rest.dropLast).all (fun d => d.isDigit) then
      match v with
      | .int i =>
        if i < 0 then .error .unmodelled
        else .ok (zeroPad (digitsToNat rest.dropLast) (natStr i.toNat))
      | .str _ => .error .valueError
    else .error .unmodelled

/-- Rendering of one replacement field (the text between the braces,
split here into name, optional conversion after an exclamation mark, and
optional format spec after a colon), following the evaluation order of
CPython's str.format: structural parse errors first, then the argument
lookup, then conversion validity, then the format spec. -/
def renderField (vars : List (String × PyVal)) (field : List Char) :
    Except PyErr String :=
  let (pre, specOpt) :=
    match splitOnFirst ':' field with
    | none => (field, none)
    | some (a, b) => (a, some b)
  let (nameChars, convOpt) :=
    match splitOnFirst '!' pre with
    | none => (pre, none)
    | some (a, b) => (a, some b)
  match convOpt with
  | some [] => .error .valueError
  | some (_ :: _ :: _) => .error .valueError
  | _ =>
    let argName := nameChars.takeWhile (fun c => c ≠ '.' ∧ c ≠ '[')
    if argName = [] ∨ argName.all (fun c => c.isDigit) then .error .indexError
    else
      match lookupVar vars (String.mk argName) with
      | none => .error .keyError
      | some v =>
        if argName ≠ nameChars then .error .unmodelled
        else
          match convOpt with
          | some [c] =>
            if c = 's' ∨ c = 'r' ∨ c = 'a' then .error .unmodelled
            else .error .valueError
          | _ => applySpec v (specOpt.getD [])

/-- Scanner for the template: processes characters one at a time; the
second argument is none in literal mode and some acc inside a
replacement field with the accumulated (reversed) field text. -/
def scanFormat (vars : List (String × PyVal)) :
    List Char → Option (List Char) → Except PyErr String
  | [], none => .ok ""
  | [], some _ => .error .valueError
  | [c], none =>
    if c = openBrace then .error .valueError
    else if c = closeBrace then .error .valueError
    else .ok (String.singleton c)
  | c :: c2 :: rest, none =>
    if c = openBrace then
      if c2 = openBrace then
        (scanFormat vars rest none).map
          (fun s => String.singleton openBrace ++ s)
      else scanFormat vars (c2 :: rest) (some [])
    else if c = closeBrace then
      if c2 = closeBrace then
        (scanFormat vars rest none).map
          (fun s => String.singleton closeBrace ++ s)
      else .error .valueError
    else
      (scanFormat vars (c2 :: rest) none).map
        (fun s => String.singleton c ++ s)
  | c :: rest, some acc =>
    if c = closeBrace then
      match renderField vars acc.reverse with
      | .ok s => (scanFormat vars rest none).map (fun t => s ++ t)
      | .error e => .error e
    else if c = openBrace then .error .unmodelled
    else scanFormat vars rest (some (c :: acc))

/-- Model of template.format(**vars) for Python's builtin str.format on
keyword arguments only, over the fragment described in the module header. -/
def pythonFormat (template : String) (vars : List (String × PyVal)) :
    Except PyErr String :=
  scanFormat vars template.toList none

/-- Calendar date (with the fields of datetime.datetime that the
numbering code reads: year, month, day). -/
structure SimpleDate where
  year : Nat
  month : Nat
  day : Nat
deriving DecidableEq, Repr

/-- Persisted fields of the TenantDocumentNumbering model relevant to the
numbering engine.  The Python attribute named like the Lean keyword for
prefix notation is rendered here with a trailing underscore.  updated_at
is set by Django's auto_now on every save; the model functions below that
correspond to saving methods therefore take the current date and store it
into updated_at. -/
structure TenantDocumentNumbering where
  document_type : String
  prefix_ : String
  suffix : String
  next_number : Nat
  padding : Nat
  include_year : Bool
  include_month : Bool
  include_day : Bool
  date_format : String
  separator : String
  custom_format : String
  reset_yearly : Bool
  reset_monthly : Bool
  updated_at : SimpleDate
deriving DecidableEq, Repr

/-- Keyword arguments built by _generate_custom_format before calling
str.format: prefix (str, empty when unset), year (int), month and day
(two-digit strings), number (zero-padded to the configured padding),
suffix (str, empty when unset). -/
def format_vars (cfg : TenantDocumentNumbering) (now : SimpleDate) :
    List (String × PyVal) :=
  [("prefix", PyVal.str cfg.prefix_),
   ("year", PyVal.int (Int.ofNat now.year)),
   ("month", PyVal.str (pad2 now.month)),
   ("day", PyVal.str (pad2 now.day)),
   ("number", PyVal.str (zeroPad cfg.padding (natStr cfg.next_number))),
   ("suffix", PyVal.str cfg.suffix)]

/-- Standard-format generation: the parts list gets the non-empty
prefix, then the date components selected by the include flags joined by
the separator (when at least one is selected), then the zero-padded
number, then the non-empty suffix; the parts are joined by the
separator.  The source's preview flag is accepted by the Python method
and never used, so it is omitted here. -/
def _generate_standard_format (cfg : TenantDocumentNumbering)
    (now : SimpleDate) : String :=
  let parts : List String := if cfg.prefix_ ≠ "" then [cfg.prefix_] else []
  let date_parts : List String :=
    (if cfg.include_year then [natStr now.year] else []) ++
    (if cfg.include_month then [pad2 now.month] else []) ++
    (if cfg.include_day then [pad2 now.day] else [])
  let parts := parts ++
    (if date_parts ≠ [] then [String.intercalate cfg.separator date_parts]
     else [])
  let parts := parts ++ [zeroPad cfg.padding (natStr cfg.next_number)]
  let parts := parts ++ (if cfg.suffix ≠ "" then [cfg.suffix] else [])
  String.intercalate cfg.separator parts

/-- Custom-format generation: renders the custom_format template with
the six keyword arguments; a KeyError or ValueError from the rendering is
caught and the standard format returned instead; any other error (such
as the IndexError of a positional replacement field) propagates. -/
def _generate_custom_format (cfg : TenantDocumentNumbering)
    (now : SimpleDate) : Except PyErr String :=
  match pythonFormat cfg.custom_format (format_vars cfg now) with
  | .ok s => .ok s
  | .error .keyError => .ok (_generate_standard_format cfg now)
  | .error .valueError => .ok (_generate_standard_format cfg now)
  | .error e => .error e

/-- Reset decision computed inside _check_and_reset_counter: starts
false, set to true when reset_yearly is on and the year changed, and set
to true when reset_monthly is on and the year or the month changed. -/
def should_reset_decision (cfg : TenantDocumentNumbering)
    (now : SimpleDate) : Bool :=
  let should_reset := false
  let should_reset :=
    if cfg.reset_yearly && (cfg.updated_at.year != now.year) then true
    else should_reset
  let should_reset :=
    if cfg.reset_monthly &&
        ((cfg.updated_at.year != now.year) ||
         (cfg.updated_at.month != now.month)) then true
    else should_reset
  should_reset

/-- Counter reset check: when the decision is positive the counter field
is set back to 1; nothing is saved here and no other field changes. -/
def _check_and_reset_counter (cfg : TenantDocumentNumbering)
    (now : SimpleDate) : TenantDocumentNumbering :=
  if should_reset_decision cfg now then { cfg with next_number := 1 }
  else cfg

/-- Dispatch between the two formatting modes, as both get_next_number
and preview_next_number do: the custom path when custom_format is
non-empty (Python truthiness of the string), the standard path
otherwise. -/
def formatNumber (cfg : TenantDocumentNumbering) (now : SimpleDate) :
    Except PyErr String :=
  if cfg.custom_format ≠ "" then _generate_custom_format cfg now
  else .ok (_generate_standard_format cfg now)

/-- Generation of the next document number: applies the reset check,
formats with the (post-reset) current counter, then increments the
counter and saves (which also touches updated_at).  When formatting
raises an uncaught error, the increment and save are never reached. -/
def get_next_number (cfg : TenantDocumentNumbering) (now : SimpleDate) :
    Except PyErr (String × TenantDocumentNumbering) :=
  let cfg1 := _check_and_reset_counter cfg now
  match formatNumber cfg1 now with
  | .ok number =>
    .ok (number,
      { cfg1 with next_number := cfg1.next_number + 1, updated_at := now })
  | .error e => .error e

/-- Preview of the next number: formats with the current counter in the
configured mode; no reset check, no increment, no save. -/
def preview_next_number (cfg : TenantDocumentNumbering)
    (now : SimpleDate) : Except PyErr String :=
  if cfg.custom_format ≠ "" then _generate_custom_format cfg now
  else .ok (_generate_standard_format cfg now)

/-- Preview as an operation on the stored state: the method body only
reads fields and never assigns or saves, so the state component is
returned unchanged. -/
def preview_op (cfg : TenantDocumentNumbering) (now : SimpleDate) :
    Except PyErr String × TenantDocumentNumbering :=
  (preview_next_number cfg now, cfg)

/-- Iterated preview calls against the stored state. -/
def preview_calls : Nat → TenantDocumentNumbering → SimpleDate →
    TenantDocumentNumbering
  | 0, cfg, _ => cfg
  | n + 1, cfg, now => preview_calls n (preview_op cfg now).2 now

/-- Manual counter increment: adds one, saves (touching updated_at) and
returns the previous value. -/
def increment_counter (cfg : TenantDocumentNumbering) (now : SimpleDate) :
    Nat × TenantDocumentNumbering :=
  (cfg.next_number,
   { cfg with next_number := cfg.next_number + 1, updated_at := now })

/-- Counter reset to a specific value, saving next_number and
updated_at. -/
def reset_counter (cfg : TenantDocumentNumbering) (new_value : Nat)
    (now : SimpleDate) : TenantDocumentNumbering :=
  { cfg with next_number := new_value, updated_at := now }

/-- Request body value for the reset endpoint: a JSON integer or a
non-integer value (represented by its string form). -/
inductive ReqValue where
  | int (i : Int)
  | str (s : String)
deriving DecidableEq, Repr

/-- Outcome of the reset endpoint: success with the new counter, or the
400 validation-error response for a non-integer or a value below 1. -/
inductive ResetResult where
  | success (new_counter : Nat)
  | validation_error
deriving DecidableEq, Repr

/-- View reset_document_counter: reads new_value from the body
(defaulting to 1), rejects a non-integer or a value below 1 with a 400
response leaving the config untouched, and otherwise calls reset_counter
and answers with the updated counter. -/
def reset_document_counter (cfg : TenantDocumentNumbering)
    (body : Option ReqValue) (now : SimpleDate) :
    ResetResult × TenantDocumentNumbering :=
  let new_value := body.getD (ReqValue.int 1)
  match new_value with
  | .int i =>
    if i < 1 then (.validation_error, cfg)
    else
      let cfg1 := reset_counter cfg i.toNat now
      (.success cfg1.next_number, cfg1)
  | .str _ => (.validation_error, cfg)

/-- Decidable equality for Except results, used to evaluate the model on
concrete inputs. -/
instance {ε α : Type} [DecidableEq ε] [DecidableEq α] :
    DecidableEq (Except ε α) := fun x y =>
  match x, y with
  | .ok a, .ok b =>
    if h : a = b then .isTrue (h ▸ rfl)
    else .isFalse (fun he => h (Except.ok.inj he))
  | .error a, .error b =>
    if h : a = b then .isTrue (h ▸ rfl)
    else .isFalse (fun he => h (Except.error.inj he))
  | .ok _, .error _ => .isFalse (fun he => Except.noConfusion he)
  | .error _, .ok _ => .isFalse (fun he => Except.noConfusion he)

/-- Lower bound on the length of the digit list produced by the core of
Nat.repr: with positive fuel at least one digit is prepended. -/
theorem toDigitsCore_len_lt (b : Nat) :
    ∀ (f n : Nat) (l : List Char),
      l.length < (Nat.toDigitsCore b (f + 1) n l).length := by
  intro f
  induction f with
  | zero =>
    intro n l
    simp only [Nat.toDigitsCore]
    split
    · simp
    · simp [Nat.toDigitsCore]
  | succ f ih =>
    intro n l
    simp only [Nat.toDigitsCore]
    split
    · simp
    · exact Nat.lt_trans (by simp) (ih (n / b) _)

/-- Decimal rendering of a natural number is never the empty string. -/
theorem natStr_ne_empty (n : Nat) : natStr n ≠ "" := by
  intro he
  have h := toDigitsCore_len_lt 10 n n []
  have hlen : (natStr n).length = (Nat.toDigitsCore 10 (n + 1) n []).length :=
    rfl
  rw [he] at hlen
  simp only [List.length_nil] at h
  have h0 : ("" : String).length = 0 := rfl
  omega

/-- Zero padding never turns a non-empty string into an empty one. -/
theorem zeroPad_ne_empty (w : Nat) (s : String) (hs : s ≠ "") :
    zeroPad w s ≠ "" := by
  unfold zeroPad
  split
  · exact hs
  · intro he
    have hlen : (String.mk (List.replicate (w - s.length) '0') ++ s).length
        = 0 := by rw [he]; rfl
    rw [String.length_append] at hlen
    have hs0 : s.length ≠ 0 := by
      intro h0
      apply hs
      cases s with
      | mk data =>
        cases data with
        | nil => rfl
        | cons c cs => exact absurd h0 (Nat.succ_ne_zero _)
    omega

/-- Length of the accumulator bounds the length of the string built by
the tail-recursive worker of String.intercalate. -/
theorem intercalate_go_len (s : String) :
    ∀ (as : List String) (acc : String),
      acc.length ≤ (String.intercalate.go acc s as).length := by
  intro as
  induction as with
  | nil => intro acc; simp [String.intercalate.go]
  | cons a as ih =>
    intro acc
    have h1 : acc.length ≤ (acc ++ s ++ a).length := by
      simp only [String.length_append]
      omega
    calc acc.length ≤ (acc ++ s ++ a).length := h1
      _ ≤ _ := ih (acc ++ s ++ a)

/-- Joining a list whose first element is non-empty gives a non-empty
string. -/
theorem intercalate_ne_empty_of_head (s a : String) (as : List String)
    (ha : a ≠ "") : String.intercalate s (a :: as) ≠ "" := by
  intro he
  have h1 : a.length ≤ (String.intercalate s (a :: as)).length := by
    simp only [String.intercalate]
    exact intercalate_go_len s as a
  rw [he] at h1
  have h0 : ("" : String).length = 0 := rfl
  have ha0 : a.length ≠ 0 := by
    intro h0'
    apply ha
    cases a with
    | mk data =>
      cases data with
      | nil => rfl
      | cons c cs => exact absurd h0' (Nat.succ_ne_zero _)
  omega

/-- Standard format as the specification words it: an ordered parts list
of the optional prefix, the date component (year, month, day selected by
the include flags and joined by the separator) present when at least one
include flag is set, the zero-padded number, and the optional suffix;
all non-empty parts joined with the separator. -/
def spec_standard_join (cfg : TenantDocumentNumbering)
    (now : SimpleDate) : String :=
  let date_core := String.intercalate cfg.separator
    ((if cfg.include_year then [natStr now.year] else []) ++
     (if cfg.include_month then [pad2 now.month] else []) ++
     (if cfg.include_day then [pad2 now.day] else []))
  let all_parts := [cfg.prefix_,
    if cfg.include_year || cfg.include_month || cfg.include_day then
      date_core
    else "",
    zeroPad cfg.padding (natStr cfg.next_number),
    cfg.suffix]
  String.intercalate cfg.separator (all_parts.filter (fun s => s != ""))

/-- Code standard formatter agrees with the specification's description
of the standard mode on every config and date. -/
theorem standard_format_eq_spec_join (cfg : TenantDocumentNumbering)
    (now : SimpleDate) :
    _generate_standard_format cfg now = spec_standard_join cfg now := by
  unfold _generate_standard_format spec_standard_join
  have hnum : zeroPad cfg.padding (natStr cfg.next_number) ≠ "" :=
    zeroPad_ne_empty _ _ (natStr_ne_empty _)
  have hy : natStr now.year ≠ "" := natStr_ne_empty _
  have hm : pad2 now.month ≠ "" := zeroPad_ne_empty _ _ (natStr_ne_empty _)
  have hd : pad2 now.day ≠ "" := zeroPad_ne_empty _ _ (natStr_ne_empty _)
  have h1 : ∀ as, String.intercalate cfg.separator (natStr now.year :: as)
      ≠ "" := fun as => intercalate_ne_empty_of_head _ _ _ hy
  have h2 : ∀ as, String.intercalate cfg.separator (pad2 now.month :: as)
      ≠ "" := fun as => intercalate_ne_empty_of_head _ _ _ hm
  have h3 : ∀ as, String.intercalate cfg.separator (pad2 now.day :: as)
      ≠ "" := fun as => intercalate_ne_empty_of_head _ _ _ hd
  by_cases hp : cfg.prefix_ = "" <;>
    by_cases hs : cfg.suffix = "" <;>
      cases hiy : cfg.include_year <;>
        cases him : cfg.include_month <;>
          cases hid : cfg.include_day <;>
            simp [hp, hs, hiy, him, hid, List.filter_cons, List.filter_nil,
              bne_iff_ne, hnum, h1, h2, h3]

/-- Invoice config with the standard-format fields of the spec's
example: FAC, yearly date component, dash separator, padding 3. -/
def cfgFac : TenantDocumentNumbering :=
  { document_type := "invoice", prefix_ := "FAC", suffix := "",
    next_number := 7, padding := 3, include_year := true,
    include_month := false, include_day := false,
    date_format := "YYYY-MM-DD", separator := "-",
    custom_format := "", reset_yearly := true, reset_monthly := false,
    updated_at := ⟨2024, 1, 15⟩ }

/-- Concrete date used to evaluate the model. -/
def dJul : SimpleDate := ⟨2024, 7, 23⟩

/-- Config whose custom format is a positional replacement field (open
and close brace with nothing between them). -/
def cfgPositional : TenantDocumentNumbering :=
  { cfgFac with custom_format := "\x7b\x7d" }

/-- Config whose custom format names an unknown placeholder, with
counter 1. -/
def cfgBogus : TenantDocumentNumbering :=
  { cfgFac with custom_format := "\x7bbogus\x7d", next_number := 1 }

/-- Config with a yearly reset due: updated in 2023 with counter 42. -/
def cfg42 : TenantDocumentNumbering :=
  { cfgFac with next_number := 42, updated_at := ⟨2023, 5, 10⟩ }

/-- Custom template of the spec's custom-format example. -/
def tmpl8 : String :=
  "\x7bprefix\x7d/\x7byear\x7d\x7bmonth\x7d/\x7bnumber\x7d"

/-- Config of the spec's custom-format example: DEV, padding 4,
counter 12, the template above. -/
def cfgDev : TenantDocumentNumbering :=
  { cfgFac with
    custom_format := tmpl8,
    prefix_ := "DEV",
    padding := 4,
    next_number := 12 }

/-- Custom format preserved by the reset check. -/
theorem check_reset_custom (cfg : TenantDocumentNumbering)
    (now : SimpleDate) :
    (_check_and_reset_counter cfg now).custom_format = cfg.custom_format := by
  unfold _check_and_reset_counter
  split <;> rfl

/-- C1 (counterexample): a config whose non-empty custom format is the
template made of a single empty replacement field references a missing
(positional) argument, so its rendering fails; yet get_next_number does
not fall back to the standard format: the IndexError escapes the except
clause that only catches KeyError and ValueError, so generation raises
instead of returning the standard string and incrementing. -/
theorem c1_counterexample :
    pythonFormat cfgPositional.custom_format
        (format_vars cfgPositional dJul) =
      Except.error PyErr.indexError ∧
    get_next_number cfgPositional dJul =
      Except.error PyErr.indexError := by
  decide

/-- C1 (amended): for every config with a non-empty custom format whose
template rendering fails with one of the two caught errors, KeyError (an
unknown named placeholder) or ValueError (malformed syntax or a bad
format code), get_next_number does not raise: it returns the
standard-format string built from the same (post-reset-check) config and
date and still increments next_number by 1; rendering failures outside
those two classes (such as the IndexError of a positional field)
propagate instead. -/
theorem c1_generate_fallback_on_caught_errors
    (cfg : TenantDocumentNumbering) (now : SimpleDate) (e : PyErr)
    (hc : cfg.custom_format ≠ "")
    (he : e = PyErr.keyError ∨ e = PyErr.valueError)
    (hr : pythonFormat cfg.custom_format
        (format_vars (_check_and_reset_counter cfg now) now) =
      Except.error e) :
    get_next_number cfg now =
      Except.ok
        (_generate_standard_format (_check_and_reset_counter cfg now) now,
         { _check_and_reset_counter cfg now with
             next_number := (_check_and_reset_counter cfg now).next_number + 1,
             updated_at := now }) := by
  have hfmt : formatNumber (_check_and_reset_counter cfg now) now =
      Except.ok
        (_generate_standard_format (_check_and_reset_counter cfg now) now) := by
    unfold formatNumber _generate_custom_format
    rw [check_reset_custom, if_pos hc, hr]
    rcases he with rfl | rfl <;> rfl
  unfold get_next_number
  simp only [hfmt]

/-- C1 (witness): the amended theorem applied to the unknown-placeholder
config at a concrete date. -/
theorem c1_generate_fallback_witness :
    get_next_number cfgBogus dJul =
      Except.ok
        (_generate_standard_format (_check_and_reset_counter cfgBogus dJul)
           dJul,
         { _check_and_reset_counter cfgBogus dJul with
             next_number :=
               (_check_and_reset_counter cfgBogus dJul).next_number + 1,
             updated_at := dJul }) :=
  c1_generate_fallback_on_caught_errors cfgBogus dJul PyErr.keyError
    (by decide) (Or.inl rfl) (by decide)

/-- C2 (counterexample): on the unknown-placeholder template the claim
expects preview_next_number to fail; instead the preview calls the same
generator whose except clause catches the KeyError, so the preview
returns the standard-format fallback string and raises nothing (no
FormatError exists anywhere in the code). -/
theorem c2_counterexample :
    pythonFormat cfgBogus.custom_format (format_vars cfgBogus dJul) =
      Except.error PyErr.keyError ∧
    _generate_standard_format cfgBogus dJul = "FAC-2024-001" ∧
    preview_next_number cfgBogus dJul = Except.ok "FAC-2024-001" := by
  decide

/-- C2 (amended): for every config with a non-empty custom format whose
template rendering fails with a caught error (KeyError for an unknown
named placeholder, ValueError for malformed syntax),
preview_next_number does not fail: exactly like generation, it returns
the standard-format fallback string. -/
theorem c2_preview_falls_back
    (cfg : TenantDocumentNumbering) (now : SimpleDate) (e : PyErr)
    (hc : cfg.custom_format ≠ "")
    (he : e = PyErr.keyError ∨ e = PyErr.valueError)
    (hr : pythonFormat cfg.custom_format (format_vars cfg now) =
      Except.error e) :
    preview_next_number cfg now =
      Except.ok (_generate_standard_format cfg now) := by
  unfold preview_next_number _generate_custom_format
  rw [if_pos hc, hr]
  rcases he with rfl | rfl <;> rfl

/-- C2 (witness): the amended theorem applied to the unknown-placeholder
config at a concrete date. -/
theorem c2_preview_falls_back_witness :
    preview_next_number cfgBogus dJul =
      Except.ok (_generate_standard_format cfgBogus dJul) :=
  c2_preview_falls_back cfgBogus dJul PyErr.keyError (by decide)
    (Or.inl rfl) (by decide)

/-- C3: for every config with reset_yearly set, counter 42 and a current
date one year after updated_at, get_next_number resets the counter
before formatting, so the returned string is the one formatted with
counter value 1 (in the configured mode) and the persisted counter
afterwards is 2 (updated_at being refreshed by the save). -/
theorem c3_yearly_reset_boundary
    (cfg : TenantDocumentNumbering) (now : SimpleDate)
    (hy : cfg.reset_yearly = true)
    (hn : cfg.next_number = 42)
    (hyear : now.year = cfg.updated_at.year + 1) :
    get_next_number cfg now =
      (formatNumber { cfg with next_number := 1 } now).map
        (fun s => (s, { cfg with next_number := 2, updated_at := now })) := by
  have hne : (cfg.updated_at.year != now.year) = true := by
    rw [hyear]
    simp [bne_iff_ne]
  have hcr : _check_and_reset_counter cfg now =
      { cfg with next_number := 1 } := by
    unfold _check_and_reset_counter should_reset_decision
    rw [hy, hne]
    simp
  unfold get_next_number
  rw [hcr]
  cases hf : formatNumber { cfg with next_number := 1 } now <;>
    simp [hf, Except.map]

/-- C3 (witness): the theorem applied to the concrete FAC config updated
in 2023 with counter 42, generating in 2024. -/
theorem c3_yearly_reset_boundary_witness :
    get_next_number cfg42 dJul =
      (formatNumber { cfg42 with next_number := 1 } dJul).map
        (fun s => (s, { cfg42 with next_number := 2, updated_at := dJul })) :=
  c3_yearly_reset_boundary cfg42 dJul rfl rfl (by decide)

/-- C4: the reset decision is true exactly when reset_yearly is set and
the current year differs from updated_at's year, or reset_monthly is set
and the current year or month differs from updated_at's; and the check
sets next_number to 1 exactly on that decision, leaving the config
untouched otherwise. -/
theorem c4_reset_decision (cfg : TenantDocumentNumbering)
    (now : SimpleDate) :
    (should_reset_decision cfg now = true ↔
      (cfg.reset_yearly = true ∧ now.year ≠ cfg.updated_at.year) ∨
      (cfg.reset_monthly = true ∧
        (now.year ≠ cfg.updated_at.year ∨
         now.month ≠ cfg.updated_at.month))) ∧
    _check_and_reset_counter cfg now =
      (if should_reset_decision cfg now then { cfg with next_number := 1 }
       else cfg) := by
  constructor
  · unfold should_reset_decision
    cases hy : cfg.reset_yearly <;>
      cases hm : cfg.reset_monthly <;>
        simp [hy, hm, bne_iff_ne] <;>
          omega
  · rfl

/-- C5 (counterexample): on the persisted FAC config updated in 2023
with counter 42 and reset_yearly set, the reset policy is due in July
2024, and the claim expects the preview to show the post-reset counter
value 1 (the string FAC-2024-001); the code's preview never runs the
reset check and returns FAC-2024-042 instead. -/
theorem c5_counterexample :
    should_reset_decision cfg42 dJul = true ∧
    _generate_standard_format { cfg42 with next_number := 1 } dJul =
      "FAC-2024-001" ∧
    preview_next_number cfg42 dJul = Except.ok "FAC-2024-042" ∧
    "FAC-2024-042" ≠ "FAC-2024-001" := by
  decide

/-- C5 (amended): the preview does not evaluate the reset policy: for
every standard-mode config for which the reset decision is positive,
preview_next_number formats with the stored counter unchanged, while
get_next_number formats with the reset counter value 1 and persists 2. -/
theorem c5_preview_ignores_reset
    (cfg : TenantDocumentNumbering) (now : SimpleDate)
    (hc : cfg.custom_format = "")
    (hdue : should_reset_decision cfg now = true) :
    preview_next_number cfg now =
      Except.ok (_generate_standard_format cfg now) ∧
    get_next_number cfg now =
      Except.ok (_generate_standard_format { cfg with next_number := 1 } now,
        { cfg with next_number := 2, updated_at := now }) := by
  constructor
  · unfold preview_next_number
    rw [if_neg]
    simp [hc]
  · have hcr : _check_and_reset_counter cfg now =
        { cfg with next_number := 1 } := by
      unfold _check_and_reset_counter
      simp [hdue]
    unfold get_next_number
    rw [hcr]
    have hfmt : formatNumber { cfg with next_number := 1 } now =
        Except.ok (_generate_standard_format { cfg with next_number := 1 }
          now) := by
      unfold formatNumber
      rw [if_neg]
      simp [hc]
    simp only [hfmt]

/-- C5 (witness): the amended theorem applied to the FAC config with a
due yearly reset at a concrete 2024 date. -/
theorem c5_preview_ignores_reset_witness :
    preview_next_number cfg42 dJul =
      Except.ok (_generate_standard_format cfg42 dJul) ∧
    get_next_number cfg42 dJul =
      Except.ok
        (_generate_standard_format { cfg42 with next_number := 1 } dJul,
         { cfg42 with next_number := 2, updated_at := dJul }) :=
  c5_preview_ignores_reset cfg42 dJul rfl (by decide)

/-- C6: any number of preview calls, with no generate or increment in
between, leaves the stored config (its counter and every other field)
exactly as it was. -/
theorem c6_preview_idempotent (cfg : TenantDocumentNumbering)
    (now : SimpleDate) (n : Nat) :
    preview_calls n cfg now = cfg := by
  induction n generalizing cfg with
  | zero => rfl
  | succ n ih => exact ih cfg

/-- C7: the standard format on the FAC example config (FAC, empty
suffix and custom format, year only, dash separator, padding 3,
counter 7) at any date in 2024 is exactly FAC-2024-007; and in general
the standard formatter joins the non-empty parts (prefix, the date
components year-month-day joined by the separator, the zero-padded
number, the suffix) with the separator, as the spec describes. -/
theorem c7_standard_format :
    (∀ (cfg : TenantDocumentNumbering) (now : SimpleDate),
      cfg.prefix_ = "FAC" → cfg.suffix = "" → cfg.custom_format = "" →
      cfg.include_year = true → cfg.include_month = false →
      cfg.include_day = false → cfg.separator = "-" → cfg.padding = 3 →
      cfg.next_number = 7 → now.year = 2024 →
      _generate_standard_format cfg now = "FAC-2024-007") ∧
    (∀ (cfg : TenantDocumentNumbering) (now : SimpleDate),
      _generate_standard_format cfg now = spec_standard_join cfg now) := by
  constructor
  · intro cfg now hp hsuf hcf hiy him hid hsep hpad hn hyr
    unfold _generate_standard_format
    rw [hp, hsuf, hiy, him, hid, hsep, hpad, hn, hyr]
    rfl
  · intro cfg now
    exact standard_format_eq_spec_join cfg now

/-- C7 (witness): both halves of the theorem instantiated on concrete
configs and the July 2024 date. -/
theorem c7_standard_format_witness :
    _generate_standard_format cfgFac dJul = "FAC-2024-007" ∧
    _generate_standard_format cfg42 dJul = spec_standard_join cfg42 dJul :=
  ⟨c7_standard_format.1 cfgFac dJul rfl rfl rfl rfl rfl rfl rfl rfl rfl rfl,
   c7_standard_format.2 cfg42 dJul⟩

/-- C8: custom mode substitutes the six placeholders into the template:
on the DEV example config (template prefix/year-month/number, DEV,
padding 4, counter 12) at 2024-07-23 the result is exactly
DEV/202407/0012; and in general whenever the template renders under the
six substituted variables, the rendered string is returned as is. -/
theorem c8_custom_format :
    (∀ (cfg : TenantDocumentNumbering),
      cfg.custom_format = tmpl8 → cfg.prefix_ = "DEV" →
      cfg.padding = 4 → cfg.next_number = 12 →
      _generate_custom_format cfg ⟨2024, 7, 23⟩ =
        Except.ok "DEV/202407/0012") ∧
    (∀ (cfg : TenantDocumentNumbering) (now : SimpleDate) (s : String),
      pythonFormat cfg.custom_format (format_vars cfg now) =
        Except.ok s →
      _generate_custom_format cfg now = Except.ok s) := by
  constructor
  · intro cfg hc hp hpad hn
    unfold _generate_custom_format format_vars
    rw [hc, hp, hpad, hn]
    rfl
  · intro cfg now s hr
    unfold _generate_custom_format
    rw [hr]

/-- C8 (witness): both halves instantiated on the concrete DEV config at
2024-07-23. -/
theorem c8_custom_format_witness :
    _generate_custom_format cfgDev ⟨2024, 7, 23⟩ =
      Except.ok "DEV/202407/0012" ∧
    _generate_custom_format cfgDev dJul = Except.ok "DEV/202407/0012" :=
  ⟨c8_custom_format.1 cfgDev rfl rfl rfl rfl,
   c8_custom_format.2 cfgDev dJul "DEV/202407/0012" (by decide)⟩

/-- C9: the reset endpoint rejects an integer below 1 and a non-integer
value with the validation error, leaving the config untouched; with
value 5 it sets next_number to 5 (touching updated_at), and a subsequent
get_next_number at that time formats with counter value 5 before
persisting 6. -/
theorem c9_reset_counter_validation :
    (∀ (cfg : TenantDocumentNumbering) (now : SimpleDate) (i : Int),
      i < 1 →
      reset_document_counter cfg (some (ReqValue.int i)) now =
        (ResetResult.validation_error, cfg)) ∧
    (∀ (cfg : TenantDocumentNumbering) (now : SimpleDate) (s : String),
      reset_document_counter cfg (some (ReqValue.str s)) now =
        (ResetResult.validation_error, cfg)) ∧
    (∀ (cfg : TenantDocumentNumbering) (now : SimpleDate),
      reset_document_counter cfg (some (ReqValue.int 5)) now =
        (ResetResult.success 5, reset_counter cfg 5 now) ∧
      (reset_counter cfg 5 now).next_number = 5 ∧
      (reset_counter cfg 5 now).updated_at = now ∧
      get_next_number (reset_counter cfg 5 now) now =
        (formatNumber (reset_counter cfg 5 now) now).map
          (fun s => (s, { cfg with next_number := 6, updated_at := now }))) := by
  refine ⟨?_, ?_, ?_⟩
  · intro cfg now i hi
    unfold reset_document_counter
    simp [hi]
  · intro cfg now s
    rfl
  · intro cfg now
    refine ⟨?_, rfl, rfl, ?_⟩
    · rfl
    · have hsd : should_reset_decision (reset_counter cfg 5 now) now =
          false := by
        unfold should_reset_decision reset_counter
        simp
      have hcr : _check_and_reset_counter (reset_counter cfg 5 now) now =
          reset_counter cfg 5 now := by
        unfold _check_and_reset_counter
        rw [hsd]
        rfl
      unfold get_next_number
      simp only [hcr]
      cases hf : formatNumber (reset_counter cfg 5 now) now <;> rfl

/-- C9 (witness): the three parts instantiated on the FAC config with
values 0, a string, and 5 at the July 2024 date. -/
theorem c9_reset_counter_validation_witness :
    reset_document_counter cfgFac (some (ReqValue.int 0)) dJul =
      (ResetResult.validation_error, cfgFac) ∧
    reset_document_counter cfgFac (some (ReqValue.str "five")) dJul =
      (ResetResult.validation_error, cfgFac) ∧
    (reset_document_counter cfgFac (some (ReqValue.int 5)) dJul =
      (ResetResult.success 5, reset_counter cfgFac 5 dJul) ∧
    (reset_counter cfgFac 5 dJul).next_number = 5 ∧
    (reset_counter cfgFac 5 dJul).updated_at = dJul ∧
    get_next_number (reset_counter cfgFac 5 dJul) dJul =
      (formatNumber (reset_counter cfgFac 5 dJul) dJul).map
        (fun s => (s, { cfgFac with next_number := 6, updated_at := dJul }))) :=
  ⟨c9_reset_counter_validation.1 cfgFac dJul 0 (by decide),
   c9_reset_counter_validation.2.1 cfgFac dJul "five",
   c9_reset_counter_validation.2.2 cfgFac dJul⟩

/-- C10: whenever the reset decision is negative, the string generated
by get_next_number is exactly the one preview_next_number shows for the
same config and date, and the persisted counter after generation is one
greater than before (updated_at being refreshed by the save); on an
uncaught formatting error both raise identically and nothing is
persisted. -/
theorem c10_generate_preview_agree
    (cfg : TenantDocumentNumbering) (now : SimpleDate)
    (h : should_reset_decision cfg now = false) :
    get_next_number cfg now =
      (preview_next_number cfg now).map
        (fun s =>
          (s, { cfg with
                next_number := cfg.next_number + 1,
                updated_at := now })) := by
  have hcr : _check_and_reset_counter cfg now = cfg := by
    unfold _check_and_reset_counter
    rw [h]
    rfl
  have hpf : preview_next_number cfg now = formatNumber cfg now := rfl
  unfold get_next_number
  rw [hcr, hpf]
  cases hf : formatNumber cfg now <;> simp [hf, Except.map]

/-- C10 (witness): the theorem applied to the FAC config (updated in
2024, so no reset is due) at the July 2024 date. -/
theorem c10_generate_preview_agree_witness :
    get_next_number cfgFac dJul =
      (preview_next_number cfgFac dJul).map
        (fun s =>
          (s, { cfgFac with
                next_number := cfgFac.next_number + 1,
                updated_at := dJul })) :=
  c10_generate_preview_agree cfgFac dJul (by decide)
